import Mathlib

/-!
A verification development for the customer-analytics backend
(`backend.py`): identifier sanitization, SQL type inference, CSV
ingestion with explicit commit/rollback boundaries, query-layer reads,
and the metrics engine (`get_key_metrics`, `get_business_insights`).

Modelling conventions:
* Scalar cell values are the inductive `SVal` (integer, decimal,
  date/time, string); pandas floating point is idealised as exact
  fraction arithmetic over `ℤ` (the type `Frac`), and timestamps as
  integer day counts (the code only uses whole-day `Timedelta`
  arithmetic and comparisons on dates).
* A pandas `DataFrame` is column-oriented: an ordered association list
  from column name to the column's value list — see `DF`.
* Python's `f"{x:,.2f}"` is modelled by `formatComma2`: exact
  round-half-to-even at two decimals plus thousands grouping.
* Fallible Python code (KeyError on a missing column, SQL errors)
  is modelled with `Except String`.
* The PostgreSQL session is modelled explicitly: a committed `DBState`
  plus a list of staged operations; `commit` applies them, `rollback`
  discards them.
-/

/-! ## Exact fractions (idealised floating point) -/

/-- An exact fraction `num / den` over `ℤ`, not kept in lowest terms.
All operations used by the backend keep `den` positive when the inputs
have positive `den` and no division by zero occurs. -/
structure Frac where
  num : ℤ
  den : ℤ
deriving DecidableEq, Repr

def Frac.ofInt (n : ℤ) : Frac := ⟨n, 1⟩

def Frac.ofNat (n : ℕ) : Frac := ⟨(n : ℤ), 1⟩

def Frac.add (a b : Frac) : Frac := ⟨a.num * b.den + b.num * a.den, a.den * b.den⟩

def Frac.mul (a b : Frac) : Frac := ⟨a.num * b.num, a.den * b.den⟩

def Frac.neg (a : Frac) : Frac := ⟨-a.num, a.den⟩

def Frac.sub (a b : Frac) : Frac := a.add b.neg

/-- Division, keeping the denominator's sign positive when both
arguments have positive denominators. -/
def Frac.div (a b : Frac) : Frac :=
  if 0 ≤ b.num then ⟨a.num * b.den, a.den * b.num⟩
  else ⟨-(a.num * b.den), -(a.den * b.num)⟩

/-- Strict order by cross-multiplication (valid for positive `den`). -/
def Frac.blt (a b : Frac) : Bool := a.num * b.den < b.num * a.den

/-- Semantic equality of fractions by cross-multiplication. -/
def Frac.beq (a b : Frac) : Bool := a.num * b.den == b.num * a.den

def Frac.isNeg (a : Frac) : Bool := a.blt (Frac.ofInt 0)

def Frac.fabs (a : Frac) : Frac := if a.isNeg then a.neg else a

def Frac.fmin (a b : Frac) : Frac := if b.blt a then b else a

def Frac.fmax (a b : Frac) : Frac := if a.blt b then b else a

def fracSum (l : List Frac) : Frac := l.foldl Frac.add (Frac.ofInt 0)

/-- `.mean()` of a list of values. -/
def fracMean (l : List Frac) : Frac := (fracSum l).div (Frac.ofNat l.length)

def listMinF : List Frac → Frac
  | [] => Frac.ofInt 0
  | a :: r => r.foldl Frac.fmin a

def listMaxF : List Frac → Frac
  | [] => Frac.ofInt 0
  | a :: r => r.foldl Frac.fmax a

def listMinZ : List ℤ → ℤ
  | [] => 0
  | a :: r => r.foldl min a

def listMaxZ : List ℤ → ℤ
  | [] => 0
  | a :: r => r.foldl max a

/-! ## Scalar values and DataFrames -/

/-- A scalar cell value: integer, decimal (float), date/time
(as an integer day count) or string. -/
inductive SVal where
  | i (n : ℤ)
  | f (q : Frac)
  | d (t : ℤ)
  | s (str : String)
deriving DecidableEq, Repr

/-- Column-oriented DataFrame: ordered list of (column name, values). -/
structure DF where
  cols : List (String × List SVal)
deriving DecidableEq, Repr

/-- `df.shape[0]`: the row count, read off the first column. -/
def DF.nRows (df : DF) : ℕ :=
  (df.cols.head?.map (fun c => c.2.length)).getD 0

/-- `df.empty`: true when the frame has no columns or no rows. -/
def DF.isEmptyDF (df : DF) : Bool :=
  df.cols.isEmpty || df.nRows == 0

/-- `df[name]`: column lookup; a missing column raises `KeyError`. -/
def DF.getCol (df : DF) (name : String) : Except String (List SVal) :=
  match df.cols.lookup name with
  | some v => .ok v
  | none => .error ("KeyError: " ++ name)

/-- `df.columns = [f(c) for c in df.columns]`: rename all columns. -/
def DF.renameCols (df : DF) (f : String → String) : DF :=
  ⟨df.cols.map (fun c => (f c.1, c.2))⟩

def emptyDF : DF := ⟨[]⟩

def SVal.toFrac : SVal → Frac
  | .i n => Frac.ofInt n
  | .f q => q
  | .d t => Frac.ofInt t
  | .s _ => Frac.ofInt 0

def SVal.toDay : SVal → ℤ
  | .d t => t
  | .i n => n
  | .f q => q.num / q.den
  | .s _ => 0

/-- `.nunique()`: number of distinct values. -/
def nuniqueSV (l : List SVal) : ℕ := l.dedup.length

/-! ## Identifier sanitizer (`sanitize_column_name`, backend.py lines 31-35) -/

/-- Membership in the character class `[a-z0-9_]`, via code points. -/
def isAllowedChar (c : Char) : Bool :=
  (97 ≤ c.toNat && c.toNat ≤ 122) || (48 ≤ c.toNat && c.toNat ≤ 57) || c.toNat == 95

/-- `col_name.lower().replace(' ', '_')` then delete every character
outside `[a-z0-9_]` — the unquoted core of `sanitize_column_name`. -/
def sanitizeCore (s : String) : String :=
  ⟨((s.data.map Char.toLower).map (fun c => if c = ' ' then '_' else c)).filter
    isAllowedChar⟩

/-- `sanitize_column_name`: the sanitized core wrapped in double quotes
(`return f'"{col_name}"'`). -/
def sanitize_column_name (s : String) : String :=
  "\"" ++ sanitizeCore s ++ "\""

/-- Python `.strip('"')`: remove leading and trailing double quotes. -/
def stripDQ (s : String) : String :=
  ⟨((s.data.dropWhile (fun c => c == '"')).reverse.dropWhile
      (fun c => c == '"')).reverse⟩

/-! ## Type inference (`infer_sql_type`, backend.py lines 37-48) -/

def SVal.isIntV : SVal → Bool
  | .i _ => true
  | _ => false

def SVal.isNumV : SVal → Bool
  | .i _ => true
  | .f _ => true
  | _ => false

def SVal.isDateV : SVal → Bool
  | .d _ => true
  | _ => false

/-- The pandas dtype lattice relevant to `infer_sql_type`. -/
inductive Dtype where
  | int64
  | float64
  | datetime64
  | obj
deriving DecidableEq, Repr

/-- The dtype pandas assigns a column from its values: all-integer
columns are `int64`, numeric columns with a decimal are `float64`,
all-date columns are `datetime64`, and everything else (including an
empty column) is `object`. -/
def seriesDtype (l : List SVal) : Dtype :=
  if l.isEmpty then .obj
  else if l.all SVal.isIntV then .int64
  else if l.all SVal.isNumV then .float64
  else if l.all SVal.isDateV then .datetime64
  else .obj

def is_numeric_dtype : Dtype → Bool
  | .int64 => true
  | .float64 => true
  | _ => false

def is_integer_dtype : Dtype → Bool
  | .int64 => true
  | _ => false

def is_datetime64_any_dtype : Dtype → Bool
  | .datetime64 => true
  | _ => false

/-- `infer_sql_type`: numeric → INTEGER/DECIMAL, datetime → TIMESTAMP,
default TEXT. -/
def infer_sql_type (l : List SVal) : String :=
  if is_numeric_dtype (seriesDtype l) then
    if is_integer_dtype (seriesDtype l) then "INTEGER" else "DECIMAL"
  else if is_datetime64_any_dtype (seriesDtype l) then "TIMESTAMP"
  else "TEXT"

/-! ## `f"{x:,.2f}"` formatting -/

/-- Copy of the fraction with a positive denominator. -/
def Frac.posDen (a : Frac) : Frac :=
  if a.den < 0 then ⟨-a.num, -a.den⟩ else a

/-- Round to the nearest integer, ties to even (the rounding used when
Python formats floating point values). -/
def roundHalfEven (q : Frac) : ℤ :=
  let p := q.posDen
  let fl := Int.fdiv p.num p.den
  let rem2 := 2 * (p.num - fl * p.den)
  if rem2 < p.den then fl
  else if p.den < rem2 then fl + 1
  else if fl % 2 = 0 then fl else fl + 1

/-- Insert `','` after every third character of a reversed digit list. -/
def groupThousands : List Char → List Char
  | a :: b :: c :: d :: rest => a :: b :: c :: ',' :: groupThousands (d :: rest)
  | l => l

/-- Decimal rendering of a natural number with thousands separators. -/
def natCommas (n : ℕ) : String :=
  ⟨(groupThousands (toString n).data.reverse).reverse⟩

/-- Python `f"{x:,.2f}"`: two decimal places, half-even rounding,
thousands separators, leading minus for negatives. -/
def formatComma2 (q : Frac) : String :=
  let cents := (roundHalfEven (q.fabs.mul (Frac.ofInt 100))).toNat
  let ip := cents / 100
  let fp := cents % 100
  (if q.isNeg then "-" else "") ++ natCommas ip ++ "." ++
    (if fp < 10 then "0" ++ toString fp else toString fp)

example : formatComma2 (Frac.ofInt 300) = "300.00" := by decide
example : formatComma2 ⟨9000, 365⟩ = "24.66" := by decide
example : formatComma2 (Frac.ofInt 1234567) = "1,234,567.00" := by decide
example : formatComma2 ⟨1234567, 100⟩ = "12,345.67" := by decide
example : formatComma2 ⟨-1, 1000⟩ = "-0.00" := by decide
example : formatComma2 ⟨25, 1000⟩ = "0.02" := by decide
example : formatComma2 ⟨35, 1000⟩ = "0.04" := by decide

/-! ## Metrics engine (`get_key_metrics`, backend.py lines 130-163) -/

/-- A metric-record value: either a raw Python number or a formatted
string. -/
inductive MVal where
  | int (n : ℤ)
  | str (s : String)
deriving DecidableEq, Repr

/-- `groupby('customer_id')['purchase_amount'].mean().mean()`: the mean,
over distinct customers, of each customer's mean purchase amount. -/
def meanOfCustomerMeans (cid : List SVal) (amt : List SVal) : Frac :=
  fracMean (cid.dedup.map (fun c =>
    fracMean (((cid.zip amt).filter (fun p => p.1 == c)).map
      (fun p => p.2.toFrac))))

/-- Distinct customers having a row strictly before the cutoff:
`df[df['purchase_date'] < cutoff]['customer_id'].nunique()`. -/
def churnedCount (cid : List SVal) (days : List ℤ) (cutoff : ℤ) : ℕ :=
  nuniqueSV (((cid.zip days).filter (fun p => p.2 < cutoff)).map (fun p => p.1))

/-- The simplified LTV formula of lines 144-147: mean-of-means purchase
value × purchases per customer × lifespan in years. -/
def ltvOf (cid amt : List SVal) (days : List ℤ) (nrows : ℕ) : Frac :=
  ((meanOfCustomerMeans cid amt).mul
      ((Frac.ofNat nrows).div (Frac.ofNat (nuniqueSV cid)))).mul
    ((Frac.ofInt (listMaxZ days - listMinZ days)).div (Frac.ofInt 365))

/-- The simplified CAC formula of line 151: total revenue over distinct
customers. -/
def cacOf (cid amt : List SVal) : Frac :=
  (fracSum (amt.map SVal.toFrac)).div (Frac.ofNat (nuniqueSV cid))

/-- The churn-rate formula of lines 155-157: distinct customers with a
row dated before `latest - 365`, over distinct customers, × 100. -/
def churnRateOf (cid : List SVal) (days : List ℤ) : Frac :=
  ((Frac.ofNat (churnedCount cid days (listMaxZ days - 365))).div
    (Frac.ofNat (nuniqueSV cid))).mul (Frac.ofInt 100)

/-- `get_key_metrics`: the three headline KPIs. The empty frame returns
raw integer zeros; otherwise LTV, CAC and churn rate are computed and
formatted. A missing required column surfaces as a `KeyError`. -/
def get_key_metrics (df : DF) : Except String (List (String × MVal)) :=
  if df.isEmptyDF then
    .ok [("LTV", .int 0), ("CAC", .int 0), ("Churn_Rate", .int 0)]
  else
    match df.getCol "customer_id", df.getCol "purchase_amount",
        df.getCol "purchase_date" with
    | .error e, _, _ => .error e
    | .ok _, .error e, _ => .error e
    | .ok _, .ok _, .error e => .error e
    | .ok cid, .ok amt, .ok pdt =>
      let days := pdt.map SVal.toDay
      .ok [("LTV", .str (formatComma2 (ltvOf cid amt days df.nRows))),
           ("CAC", .str (formatComma2 (cacOf cid amt))),
           ("Churn_Rate", .str (formatComma2 (churnRateOf cid days) ++ "%"))]

/-- `get_business_insights`: descriptive aggregates. The empty frame
returns an empty mapping; `Total_Customers` stays a raw count while the
four amount aggregates are formatted. -/
def get_business_insights (df : DF) : Except String (List (String × MVal)) :=
  if df.isEmptyDF then .ok []
  else
    match df.getCol "customer_id", df.getCol "purchase_amount" with
    | .error e, _ => .error e
    | .ok _, .error e => .error e
    | .ok cid, .ok amtV =>
      let amt := amtV.map SVal.toFrac
      .ok [("Total_Customers", .int (nuniqueSV cid : ℤ)),
           ("Total_Revenue", .str (formatComma2 (fracSum amt))),
           ("Average_Purchase_Amount", .str (formatComma2 (fracMean amt))),
           ("Min_Purchase", .str (formatComma2 (listMinF amt))),
           ("Max_Purchase", .str (formatComma2 (listMaxF amt)))]

/-! ## Storage model: committed state, staged operations, sessions -/

/-- A stored table: the column definitions as issued by `CREATE TABLE`
(name as written in the statement, SQL type), and the loaded data,
column-oriented, aligned with the schema. -/
structure Table where
  schema : List (String × String)
  data : List (List SVal)
deriving DecidableEq, Repr

/-- The committed database: tables by name. -/
structure DBState where
  tables : List (String × Table)
deriving DecidableEq, Repr

/-- A statement executed inside the current transaction. -/
inductive DbOp where
  | dropT (t : String)
  | createT (t : String) (schema : List (String × String))
  | insertCols (t : String) (cols : List (List SVal))
deriving DecidableEq, Repr

def removeTable (tabs : List (String × Table)) (name : String) :
    List (String × Table) :=
  tabs.filter (fun p => !(p.1 == name))

/-- Apply one committed operation to the database. -/
def applyOp (db : DBState) : DbOp → DBState
  | .dropT t => ⟨removeTable db.tables t⟩
  | .createT t sch =>
      ⟨removeTable db.tables t ++ [(t, ⟨sch, sch.map (fun _ => [])⟩)]⟩
  | .insertCols t cols =>
      ⟨db.tables.map (fun p =>
        if p.1 == t then (p.1, ⟨p.2.schema, List.zipWith (fun old new => old ++ new) p.2.data cols⟩)
        else p)⟩

/-- A connection: committed state plus the ops staged in the current
transaction. -/
structure Session where
  committed : DBState
  staged : List DbOp
deriving Repr

/-- `conn.commit()`: apply every staged operation, clear the stage. -/
def Session.commit (s : Session) : Session :=
  ⟨s.staged.foldl applyOp s.committed, []⟩

/-- `conn.rollback()`: discard every staged operation. -/
def Session.rollback (s : Session) : Session :=
  ⟨s.committed, []⟩

/-- `cursor.execute(...)`: stage one operation. -/
def Session.stage (s : Session) (op : DbOp) : Session :=
  ⟨s.committed, s.staged ++ [op]⟩

/-! ## Ingestion (`ingest_csv_data`, backend.py lines 53-97) -/

/-- `ingest_csv_data`. Failure modes are injected explicitly: `connOk`
models whether `get_db_connection` succeeds, and `copyFail` models a
failure of the `COPY FROM` bulk load, in which case `partialStaged` is
whatever the failed copy had staged before raising. Returns the Python
return value, the committed database, and the caller's DataFrame (whose
column list the function mutates in place). -/
def ingest_csv_data (db : DBState) (df : DF) (table_name : String)
    (connOk : Bool) (copyFail : Bool) (partialStaged : List (List SVal)) :
    Bool × DBState × DF :=
  if !connOk then (false, db, df)
  else
    let sanitized_table_name := stripDQ (sanitize_column_name table_name)
    -- DROP TABLE IF EXISTS ...; conn.commit()
    let s1 := (Session.stage ⟨db, []⟩ (.dropT sanitized_table_name)).commit
    -- df.columns = [sanitize_column_name(col) for col in df.columns]
    let df1 := df.renameCols sanitize_column_name
    let schema := df1.cols.map (fun c => (c.1, infer_sql_type c.2))
    -- CREATE TABLE ... ; conn.commit()
    let s2 := (Session.stage s1 (.createT sanitized_table_name schema)).commit
    -- df.columns = [col.strip('"') for col in df.columns]
    let df2 := df1.renameCols stripDQ
    if copyFail then
      -- cursor.copy_from raises mid-load; except: conn.rollback(); return False
      let s3 := (Session.stage s2 (.insertCols sanitized_table_name partialStaged)).rollback
      (false, s3.committed, df2)
    else
      -- cursor.copy_from succeeds; conn.commit(); return True
      let s3 := (Session.stage s2 (.insertCols sanitized_table_name
        (df2.cols.map (fun c => c.2)))).commit
      (true, s3.committed, df2)

/-! ## Query layer (`get_all_data`, `get_data_by_filters`) -/

/-- `SELECT * FROM t`: the stored table as a DataFrame (column names as
stored, i.e. unquoted), or an error when the relation is absent. -/
def selectAllFrom (db : DBState) (tname : String) : Except String DF :=
  match db.tables.lookup tname with
  | some t => .ok ⟨(t.schema.map (fun c => stripDQ c.1)).zip t.data⟩
  | none => .error ("relation does not exist: " ++ tname)

/-- `get_all_data`: sanitize the table name, select everything; any
failure (no connection, bad query) degrades to an empty DataFrame. The
committed database is returned to state that reads leave it unchanged. -/
def get_all_data (db : DBState) (table_name : String) (connOk : Bool) :
    DF × DBState :=
  if !connOk then (emptyDF, db)
  else
    let sanitized_table_name := stripDQ (sanitize_column_name table_name)
    match selectAllFrom db sanitized_table_name with
    | .ok df => (df, db)
    | .error _ => (emptyDF, db)

/-- `get_data_by_filters`: run a caller-supplied query. The query is
modelled semantically: given the committed state it either fails or
returns a result frame together with whatever write operations it
staged. The connection is closed without `commit`, so staged writes are
discarded; any failure degrades to an empty DataFrame. -/
def get_data_by_filters (db : DBState)
    (query : DBState → Except String (DF × List DbOp)) (connOk : Bool) :
    DF × DBState :=
  if !connOk then (emptyDF, db)
  else
    match query db with
    | .ok (df, _staged) => (df, db)
    | .error _ => (emptyDF, db)

deriving instance DecidableEq for Except

/-! ## Spec-side formulations used for refinement comparison -/

/-- The spec-shaped churn count: distinct customers having AT LEAST ONE
purchase dated strictly before the cutoff. -/
def anyOldPurchaseCount (cid : List SVal) (days : List ℤ) (cutoff : ℤ) : ℕ :=
  (cid.dedup.filter (fun c =>
    (cid.zip days).any (fun p => p.1 == c && decide (p.2 < cutoff)))).length

/-- The claimed churn count, following the spec's words: distinct
customers whose MOST RECENT purchase is dated strictly before the
cutoff. -/
def mostRecentOldCount (cid : List SVal) (days : List ℤ) (cutoff : ℤ) : ℕ :=
  (cid.dedup.filter (fun c =>
    decide (listMaxZ (((cid.zip days).filter (fun p => p.1 == c)).map
      (fun p => p.2)) < cutoff))).length

/-- The column definitions `ingest_csv_data` issues: quoted sanitized
name plus inferred SQL type, per original column. -/
def ingestSchema (df : DF) : List (String × String) :=
  df.cols.map (fun c => (sanitize_column_name c.1, infer_sql_type c.2))

/-! ## Concrete frames used by witnesses and counterexamples -/

/-- One customer, purchases 100 and 200, dates 30 days apart. -/
def exDF5 : DF :=
  ⟨[("customer_id", [.i 1, .i 1]), ("purchase_date", [.d 0, .d 30]),
    ("purchase_amount", [.i 100, .i 200])]⟩

/-- One customer with a purchase at the latest date (day 400) and an
old purchase at day 0, more than 365 days before it. -/
def exDF1 : DF :=
  ⟨[("customer_id", [.i 1, .i 1]), ("purchase_date", [.d 0, .d 400]),
    ("purchase_amount", [.i 5, .i 5])]⟩

/-- Purchase amounts 10, 20, 30 for a single customer. -/
def exDF7 : DF :=
  ⟨[("customer_id", [.i 1, .i 1, .i 1]),
    ("purchase_amount", [.i 10, .i 20, .i 30])]⟩

/-- A non-empty frame lacking `purchase_amount`. -/
def exDF6 : DF :=
  ⟨[("customer_id", [.i 1]), ("purchase_date", [.d 0])]⟩

/-- A one-column frame whose header needs sanitizing. -/
def exDFCust : DF := ⟨[("Customer ID", [.i 7])]⟩

example : get_key_metrics exDF5 =
    .ok [("LTV", .str "24.66"), ("CAC", .str "300.00"),
      ("Churn_Rate", .str "0.00%")] := by decide

example : get_key_metrics exDF1 =
    .ok [("LTV", .str "10.96"), ("CAC", .str "10.00"),
      ("Churn_Rate", .str "100.00%")] := by decide

example : get_business_insights exDF7 =
    .ok [("Total_Customers", .int 1), ("Total_Revenue", .str "60.00"),
      ("Average_Purchase_Amount", .str "20.00"),
      ("Min_Purchase", .str "10.00"), ("Max_Purchase", .str "30.00")] := by decide

example : get_key_metrics exDF6 = .error "KeyError: purchase_amount" := by decide

/-! ## Lemmas about the sanitizer's character pipeline -/

theorem allowed_toLower {c : Char} (h : isAllowedChar c = true) : c.toLower = c := by
  have h' : (97 ≤ c.toNat ∧ c.toNat ≤ 122 ∨ 48 ≤ c.toNat ∧ c.toNat ≤ 57) ∨
      c.toNat = 95 := by
    simpa [isAllowedChar] using h
  unfold Char.toLower
  rw [if_neg]
  omega

theorem allowed_repl {c : Char} (h : isAllowedChar c = true) :
    (if c = ' ' then '_' else c) = c := by
  rw [if_neg]
  intro hc
  subst hc
  exact absurd h (by decide)

theorem allowed_ne_quote {c : Char} (h : isAllowedChar c = true) :
    (c == '"') = false := by
  cases hq : c == '"' with
  | false => rfl
  | true =>
    have : c = '"' := by exact beq_iff_eq.mp hq
    subst this
    exact absurd h (by decide)

theorem sanitize_pipe_id (l : List Char) :
    (∀ c ∈ l, isAllowedChar c = true) →
    ((l.map Char.toLower).map (fun c => if c = ' ' then '_' else c)).filter
      isAllowedChar = l := by
  induction l with
  | nil => intro _; rfl
  | cons a t ih =>
    intro h
    have ha := h a (by simp)
    have ht : ∀ c ∈ t, isAllowedChar c = true := fun c hc => h c (by simp [hc])
    rw [List.map_cons, List.map_cons, allowed_toLower ha, allowed_repl ha,
      List.filter_cons_of_pos, ih ht]
    exact ha

theorem sanitizeCore_chars (s : String) :
    ∀ c ∈ (sanitizeCore s).data, isAllowedChar c = true := by
  intro c hc
  exact (List.mem_filter.mp hc).2

theorem sanitizeCore_id {s : String} (h : ∀ c ∈ s.data, isAllowedChar c = true) :
    sanitizeCore s = s := by
  unfold sanitizeCore
  rw [sanitize_pipe_id s.data h]

theorem dropWhile_of_allowed (l : List Char)
    (h : ∀ c ∈ l, isAllowedChar c = true) :
    l.dropWhile (fun c => c == '"') = l := by
  cases l with
  | nil => rfl
  | cons a t =>
    have ha := h a (by simp)
    simp [List.dropWhile_cons, allowed_ne_quote ha]

theorem stripDQ_wrap_list (l : List Char) (h : ∀ c ∈ l, isAllowedChar c = true) :
    ((('"' :: (l ++ ['"'])).dropWhile (fun c => c == '"')).reverse.dropWhile
      (fun c => c == '"')).reverse = l := by
  rw [List.dropWhile_cons]
  simp only [show (('"' : Char) == '"') = true from rfl, if_true]
  cases l with
  | nil => decide
  | cons a t =>
    have ha := h a (by simp)
    rw [show (a :: t) ++ ['"'] = a :: (t ++ ['"']) from rfl, List.dropWhile_cons]
    simp only [allowed_ne_quote ha, if_false, Bool.false_eq_true]
    have hrev : (a :: (t ++ ['"'])).reverse = '"' :: (t.reverse ++ [a]) := by simp
    rw [hrev, List.dropWhile_cons]
    simp only [show (('"' : Char) == '"') = true from rfl, if_true]
    rw [dropWhile_of_allowed]
    · simp
    · intro c hc
      rcases List.mem_append.mp hc with hcm | hcm
      · exact h c (List.mem_cons_of_mem a (List.mem_reverse.mp hcm))
      · have : c = a := List.mem_singleton.mp hcm
        subst this
        exact ha

theorem stripDQ_sanitize (s : String) :
    stripDQ (sanitize_column_name s) = sanitizeCore s := by
  have h := sanitizeCore_chars s
  show String.mk _ = sanitizeCore s
  have hdata : (sanitize_column_name s).data =
      '"' :: ((sanitizeCore s).data ++ ['"']) := by
    simp [sanitize_column_name]
  rw [hdata, stripDQ_wrap_list (sanitizeCore s).data h]

/-! ## C2: the sanitizer's output alphabet and identity transform -/

/-- C2 (corrected): the string `sanitize_column_name` returns is the
double-quote-wrapped sanitized core; the quote-stripped core contains
only `[a-z0-9_]`, and on input that is already lowercase snake_case the
core is the input unchanged. -/
theorem C2_sanitizer_amended (s : String) :
    sanitize_column_name s = "\"" ++ sanitizeCore s ++ "\"" ∧
    (∀ c ∈ (stripDQ (sanitize_column_name s)).data, isAllowedChar c = true) ∧
    ((∀ c ∈ s.data, isAllowedChar c = true) →
      stripDQ (sanitize_column_name s) = s) := by
  rw [stripDQ_sanitize]
  exact ⟨rfl, sanitizeCore_chars s, fun h => sanitizeCore_id h⟩

/-- C2 witness: a concrete already-valid snake_case name. -/
theorem C2_sanitizer_amended_witness :
    sanitize_column_name "ab_c1" = "\"" ++ sanitizeCore "ab_c1" ++ "\"" ∧
    stripDQ (sanitize_column_name "ab_c1") = "ab_c1" :=
  ⟨(C2_sanitizer_amended "ab_c1").1,
   (C2_sanitizer_amended "ab_c1").2.2 (by decide)⟩

/-- C2 counterexample: on the already-valid name "abc" the returned
string is quoted, hence neither restricted to `[a-z0-9_]` nor equal to
the input. -/
theorem C2_counterexample :
    sanitize_column_name "abc" ≠ "abc" ∧
    (sanitize_column_name "abc").data.all isAllowedChar = false := by
  decide

/-! ## C3: type-inference priority rules -/

/-- C3 (confirmed): `infer_sql_type` applies the priority rules on a
non-empty column: all integer values → INTEGER; all numeric with a
non-integer → DECIMAL; all date/time → TIMESTAMP; otherwise (mixed,
e.g. one non-numeric value among numerics) → TEXT. -/
theorem C3_infer_priority (l : List SVal) (hne : l ≠ []) :
    (l.all SVal.isIntV = true → infer_sql_type l = "INTEGER") ∧
    (l.all SVal.isNumV = true → l.all SVal.isIntV = false →
      infer_sql_type l = "DECIMAL") ∧
    (l.all SVal.isDateV = true → infer_sql_type l = "TIMESTAMP") ∧
    (l.all SVal.isNumV = false → l.all SVal.isDateV = false →
      infer_sql_type l = "TEXT") := by
  obtain ⟨a, t, rfl⟩ := List.exists_cons_of_ne_nil hne
  refine ⟨?_, ?_, ?_, ?_⟩
  · intro h
    have hnum : (a :: t).all SVal.isNumV = true := by
      rw [List.all_eq_true] at h ⊢
      intro x hx
      have := h x hx
      cases x <;> simp_all [SVal.isIntV, SVal.isNumV]
    simp [infer_sql_type, seriesDtype, h, hnum, is_numeric_dtype, is_integer_dtype]
  · intro hnum hint
    simp [infer_sql_type, seriesDtype, hnum, hint, is_numeric_dtype, is_integer_dtype]
  · intro hdate
    have ha : SVal.isDateV a = true := by
      rw [List.all_eq_true] at hdate
      exact hdate a (by simp)
    have hint : (a :: t).all SVal.isIntV = false := by
      rw [List.all_cons]
      cases a <;> simp_all [SVal.isDateV, SVal.isIntV]
    have hnum : (a :: t).all SVal.isNumV = false := by
      rw [List.all_cons]
      cases a <;> simp_all [SVal.isDateV, SVal.isNumV]
    simp [infer_sql_type, seriesDtype, hdate, hint, hnum, is_numeric_dtype,
      is_datetime64_any_dtype]
  · intro hnum hdate
    have hint : (a :: t).all SVal.isIntV = false := by
      cases hi : (a :: t).all SVal.isIntV with
      | false => rfl
      | true =>
        rw [List.all_eq_true] at hi
        have : (a :: t).all SVal.isNumV = true := by
          rw [List.all_eq_true]
          intro x hx
          have := hi x hx
          cases x <;> simp_all [SVal.isIntV, SVal.isNumV]
        simp_all
    simp [infer_sql_type, seriesDtype, hnum, hint, hdate, is_numeric_dtype,
      is_datetime64_any_dtype]

/-- C3 witness: one non-numeric value among otherwise numeric values is
classified TEXT, not DECIMAL. -/
theorem C3_infer_priority_witness :
    infer_sql_type [SVal.i 1, SVal.i 2, SVal.s "x"] = "TEXT" :=
  (C3_infer_priority [SVal.i 1, SVal.i 2, SVal.s "x"] (by decide)).2.2.2
    (by decide) (by decide)

/-! ## Column-lookup lemmas for the metrics engine -/

theorem getCol_none {df : DF} {n : String} (h : df.cols.lookup n = none) :
    df.getCol n = .error ("KeyError: " ++ n) := by
  simp [DF.getCol, h]

theorem getCol_ok_lookup {df : DF} {n : String} {v : List SVal}
    (h : df.getCol n = .ok v) : df.cols.lookup n = some v := by
  unfold DF.getCol at h
  cases hl : df.cols.lookup n with
  | none => rw [hl] at h; exact absurd h (by simp)
  | some w => rw [hl] at h; simpa using h

/-! ## C4: the empty-dataset defaults -/

/-- C4 (corrected): on an empty dataset `get_key_metrics` returns raw
integer zeros for all three KPIs (no formatting, no % suffix) and does
not signal an error. -/
theorem C4_empty_defaults (df : DF) (h : df.isEmptyDF = true) :
    get_key_metrics df =
      .ok [("LTV", .int 0), ("CAC", .int 0), ("Churn_Rate", .int 0)] := by
  simp [get_key_metrics, h]

/-- C4 witness: the canonical empty frame. -/
theorem C4_empty_defaults_witness :
    get_key_metrics emptyDF =
      .ok [("LTV", .int 0), ("CAC", .int 0), ("Churn_Rate", .int 0)] :=
  C4_empty_defaults emptyDF (by decide)

/-- C4 counterexample: the zero defaults are raw numbers, not formatted
strings (no value of the returned record is a string). -/
theorem C4_counterexample :
    get_key_metrics emptyDF =
      .ok [("LTV", .int 0), ("CAC", .int 0), ("Churn_Rate", .int 0)] ∧
    (∀ s : String, MVal.int 0 ≠ MVal.str s) :=
  ⟨by decide, fun _ h => MVal.noConfusion h⟩

/-! ## C5: the CAC formula -/

/-- C5 (confirmed): on a non-empty frame with the three required
columns, the CAC entry is the purchase-amount sum over the distinct
customer count, formatted to two decimals (`cacOf` is by definition
`fracSum (amounts) / nunique (customer ids)`). -/
theorem C5_cac (df : DF) (cid amt pdt : List SVal)
    (he : df.isEmptyDF = false)
    (h1 : df.getCol "customer_id" = .ok cid)
    (h2 : df.getCol "purchase_amount" = .ok amt)
    (h3 : df.getCol "purchase_date" = .ok pdt) :
    get_key_metrics df =
      .ok [("LTV", .str (formatComma2 (ltvOf cid amt (pdt.map SVal.toDay) df.nRows))),
           ("CAC", .str (formatComma2 (cacOf cid amt))),
           ("Churn_Rate", .str (formatComma2 (churnRateOf cid (pdt.map SVal.toDay)) ++ "%"))] ∧
    cacOf cid amt = (fracSum (amt.map SVal.toFrac)).div (Frac.ofNat (nuniqueSV cid)) := by
  refine ⟨?_, rfl⟩
  simp [get_key_metrics, he, h1, h2, h3]

/-- C5 witness: a single customer with purchases 100 and 200 on dates
30 days apart; total customers 1, total revenue 300, CAC "300.00". -/
theorem C5_cac_witness :
    get_key_metrics exDF5 =
      .ok [("LTV", .str "24.66"), ("CAC", .str "300.00"),
           ("Churn_Rate", .str "0.00%")] ∧
    nuniqueSV [SVal.i 1, SVal.i 1] = 1 ∧
    Frac.beq (fracSum ([SVal.i 100, SVal.i 200].map SVal.toFrac))
      (Frac.ofInt 300) = true := by
  refine ⟨?_, by decide, by decide⟩
  have h := (C5_cac exDF5 [SVal.i 1, SVal.i 1] [SVal.i 100, SVal.i 200]
    [SVal.d 0, SVal.d 30] (by decide) (by decide) (by decide) (by decide)).1
  exact h.trans (by decide)

/-! ## C6: missing required columns -/

/-- C6 (confirmed): a non-empty frame lacking any one of the three
required columns makes `get_key_metrics` signal an error (a KeyError),
never a computed record. -/
theorem C6_missing_column (df : DF) (he : df.isEmptyDF = false)
    (h : df.cols.lookup "customer_id" = none ∨
      df.cols.lookup "purchase_amount" = none ∨
      df.cols.lookup "purchase_date" = none) :
    ∃ msg, get_key_metrics df = .error msg := by
  cases hc1 : df.getCol "customer_id" with
  | error e => exact ⟨e, by simp [get_key_metrics, he, hc1]⟩
  | ok cid =>
    cases hc2 : df.getCol "purchase_amount" with
    | error e => exact ⟨e, by simp [get_key_metrics, he, hc1, hc2]⟩
    | ok amt =>
      cases hc3 : df.getCol "purchase_date" with
      | error e => exact ⟨e, by simp [get_key_metrics, he, hc1, hc2, hc3]⟩
      | ok pdt =>
        exfalso
        rcases h with hn | hn | hn
        · rw [getCol_ok_lookup hc1] at hn; exact Option.noConfusion hn
        · rw [getCol_ok_lookup hc2] at hn; exact Option.noConfusion hn
        · rw [getCol_ok_lookup hc3] at hn; exact Option.noConfusion hn

/-- C6 witness: a frame with customer ids and dates but no
`purchase_amount` column. -/
theorem C6_missing_column_witness :
    ∃ msg, get_key_metrics exDF6 = .error msg :=
  C6_missing_column exDF6 (by decide) (Or.inr (Or.inl (by decide)))

/-! ## C7: the insights record -/

/-- C7 (corrected): the insights record on a non-empty frame carries
the distinct-customer count as a raw number and the four
purchase-amount aggregates formatted to two decimals; an empty frame
yields the empty mapping. -/
theorem C7_insights_amended (df : DF) (cid amtV : List SVal)
    (he : df.isEmptyDF = false)
    (h1 : df.getCol "customer_id" = .ok cid)
    (h2 : df.getCol "purchase_amount" = .ok amtV) :
    get_business_insights df =
      .ok [("Total_Customers", .int (nuniqueSV cid : ℤ)),
           ("Total_Revenue", .str (formatComma2 (fracSum (amtV.map SVal.toFrac)))),
           ("Average_Purchase_Amount", .str (formatComma2 (fracMean (amtV.map SVal.toFrac)))),
           ("Min_Purchase", .str (formatComma2 (listMinF (amtV.map SVal.toFrac)))),
           ("Max_Purchase", .str (formatComma2 (listMaxF (amtV.map SVal.toFrac))))] ∧
    (∀ d : DF, d.isEmptyDF = true → get_business_insights d = .ok []) := by
  constructor
  · simp [get_business_insights, he, h1, h2]
  · intro d hd
    simp [get_business_insights, hd]

/-- C7 witness: amounts [10, 20, 30] give sum "60.00", mean "20.00",
min "10.00", max "30.00", and the raw count 1; the empty frame gives
the empty mapping. -/
theorem C7_insights_amended_witness :
    get_business_insights exDF7 =
      .ok [("Total_Customers", .int 1), ("Total_Revenue", .str "60.00"),
           ("Average_Purchase_Amount", .str "20.00"),
           ("Min_Purchase", .str "10.00"), ("Max_Purchase", .str "30.00")] ∧
    get_business_insights emptyDF = .ok [] := by
  have h := C7_insights_amended exDF7 [SVal.i 1, SVal.i 1, SVal.i 1]
    [SVal.i 10, SVal.i 20, SVal.i 30] (by decide) (by decide) (by decide)
  exact ⟨h.1.trans (by decide), h.2 emptyDF (by decide)⟩

/-- C7 counterexample: `Total_Customers` is returned as a raw number,
not a formatted numeric string — so not every value of the insights
record is a formatted string. -/
theorem C7_counterexample :
    get_business_insights exDF7 =
      .ok [("Total_Customers", .int 1), ("Total_Revenue", .str "60.00"),
           ("Average_Purchase_Amount", .str "20.00"),
           ("Min_Purchase", .str "10.00"), ("Max_Purchase", .str "30.00")] ∧
    (∀ s : String, MVal.int 1 ≠ MVal.str s) :=
  ⟨by decide, fun _ h => MVal.noConfusion h⟩

/-! ## C1: the churn-rate window -/

/-- The code's filter-rows-then-count-distinct churn equals the count of
distinct customers having at least one old purchase. -/
theorem churnedCount_eq_anyOld (cid : List SVal) (days : List ℤ) (t : ℤ) :
    churnedCount cid days t = anyOldPurchaseCount cid days t := by
  classical
  set L := ((cid.zip days).filter (fun p => decide (p.2 < t))).map Prod.fst with hL
  set R := cid.dedup.filter (fun c =>
    (cid.zip days).any (fun p => p.1 == c && decide (p.2 < t))) with hR
  have hLt : churnedCount cid days t = L.toFinset.card := by
    rw [List.card_toFinset]
    rfl
  have hRnodup : R.Nodup := (List.nodup_dedup cid).filter _
  have hRt : anyOldPurchaseCount cid days t = R.toFinset.card := by
    rw [List.toFinset_card_of_nodup hRnodup]
    rfl
  rw [hLt, hRt]
  congr 1
  apply Finset.ext
  intro x
  simp only [List.mem_toFinset, hL, hR, List.mem_map, List.mem_filter,
    List.mem_dedup, List.any_eq_true, Bool.and_eq_true, beq_iff_eq,
    decide_eq_true_eq]
  constructor
  · rintro ⟨p, ⟨hp, hlt⟩, rfl⟩
    refine ⟨?_, p, hp, rfl, hlt⟩
    have := List.of_mem_zip (show (p.1, p.2) ∈ cid.zip days from hp)
    exact this.1
  · rintro ⟨-, p, hp, hpx, hlt⟩
    exact ⟨p, ⟨hp, hlt⟩, hpx⟩

/-- C1 (corrected): on a non-empty frame with the required columns the
churn-rate entry is `(anyOldPurchaseCount / nunique) × 100`, formatted
with a % suffix: the numerator counts distinct customers with AT LEAST
ONE purchase more than 365 days before the latest date, not customers
whose most recent purchase is that old. -/
theorem C1_churn_amended (df : DF) (cid amt pdt : List SVal)
    (he : df.isEmptyDF = false)
    (h1 : df.getCol "customer_id" = .ok cid)
    (h2 : df.getCol "purchase_amount" = .ok amt)
    (h3 : df.getCol "purchase_date" = .ok pdt) :
    get_key_metrics df =
      .ok [("LTV", .str (formatComma2 (ltvOf cid amt (pdt.map SVal.toDay) df.nRows))),
           ("CAC", .str (formatComma2 (cacOf cid amt))),
           ("Churn_Rate", .str (formatComma2 (churnRateOf cid (pdt.map SVal.toDay)) ++ "%"))] ∧
    churnRateOf cid (pdt.map SVal.toDay) =
      ((Frac.ofNat (anyOldPurchaseCount cid (pdt.map SVal.toDay)
          (listMaxZ (pdt.map SVal.toDay) - 365))).div
        (Frac.ofNat (nuniqueSV cid))).mul (Frac.ofInt 100) := by
  constructor
  · simp [get_key_metrics, he, h1, h2, h3]
  · rw [churnRateOf, churnedCount_eq_anyOld]

/-- C1 witness: one customer purchasing on day 0 and day 400 — the old
day-0 row makes the rate 100%. -/
theorem C1_churn_amended_witness :
    get_key_metrics exDF1 =
      .ok [("LTV", .str "10.96"), ("CAC", .str "10.00"),
           ("Churn_Rate", .str "100.00%")] ∧
    anyOldPurchaseCount [SVal.i 1, SVal.i 1] [0, 400] 35 = 1 := by
  refine ⟨?_, by decide⟩
  have h := (C1_churn_amended exDF1 [SVal.i 1, SVal.i 1] [SVal.i 5, SVal.i 5]
    [SVal.d 0, SVal.d 400] (by decide) (by decide) (by decide) (by decide)).1
  exact h.trans (by decide)

/-- C1 counterexample: in `exDF1` the single customer's most recent
purchase is at the latest date (day 400), inside the trailing window,
so the claimed formula counts 0 churned ("0.00%"); the code returns
"100.00%" because of the old day-0 row. -/
theorem C1_counterexample :
    get_key_metrics exDF1 =
      .ok [("LTV", .str "10.96"), ("CAC", .str "10.00"),
           ("Churn_Rate", .str "100.00%")] ∧
    mostRecentOldCount [SVal.i 1, SVal.i 1] [0, 400] (400 - 365) = 0 ∧
    nuniqueSV [SVal.i 1, SVal.i 1] = 1 ∧
    formatComma2 (((Frac.ofNat 0).div (Frac.ofNat 1)).mul (Frac.ofInt 100)) ++ "%"
      = "0.00%" ∧
    ("100.00%" : String) ≠ "0.00%" := by
  refine ⟨by decide, by decide, by decide, by decide, by decide⟩

/-! ## C8: the commit boundary between schema change and bulk load -/

theorem lookup_remove_append (tabs : List (String × Table)) (t : String)
    (tab : Table) :
    (removeTable tabs t ++ [(t, tab)]).lookup t = some tab := by
  induction tabs with
  | nil => simp [removeTable, List.lookup]
  | cons p rest ih =>
    by_cases hp : p.1 = t
    · simpa [removeTable, List.filter_cons, hp] using ih
    · have : (t == p.1) = false := by
        simp [beq_iff_eq]
        exact fun h => hp h.symm
      simpa [removeTable, List.filter_cons, hp, List.lookup, this] using ih

/-- C8 (confirmed): with a live connection and a failing bulk load, the
drop and create are already committed, so after the load's rollback the
table exists with the inferred schema and zero rows in every column —
whatever partial rows the failed copy staged are never visible — and
the function returns `false` rather than raising. -/
theorem C8_load_failure_boundary (db : DBState) (df : DF) (tn : String)
    (partialStaged : List (List SVal)) :
    (ingest_csv_data db df tn true true partialStaged).1 = false ∧
    (ingest_csv_data db df tn true true partialStaged).2.1.tables.lookup
        (stripDQ (sanitize_column_name tn)) =
      some ⟨ingestSchema df, (ingestSchema df).map (fun _ => [])⟩ := by
  constructor
  · rfl
  · show (DBState.tables _).lookup _ = _
    simp only [ingest_csv_data, Bool.not_true, Bool.false_eq_true, if_false,
      Session.stage, Session.commit, Session.rollback, List.foldl_cons,
      List.foldl_nil, List.nil_append, applyOp]
    have hschema : (df.renameCols sanitize_column_name).cols.map
        (fun c => (c.1, infer_sql_type c.2)) = ingestSchema df := by
      simp [DF.renameCols, ingestSchema, List.map_map, Function.comp]
    rw [hschema]
    exact lookup_remove_append _ _ _

/-! ## C9: reads never raise and never mutate -/

/-- C9 (confirmed): `get_all_data` and `get_data_by_filters` always
return the committed database unchanged, and return the empty frame
when the connection fails, the table is absent, or the query errors. -/
theorem C9_reads_safe (db : DBState) (tn : String)
    (q : DBState → Except String (DF × List DbOp)) (connOk : Bool) :
    (get_all_data db tn connOk).2 = db ∧
    (get_data_by_filters db q connOk).2 = db ∧
    (connOk = false →
      (get_all_data db tn connOk).1 = emptyDF ∧
      (get_data_by_filters db q connOk).1 = emptyDF) ∧
    (db.tables.lookup (stripDQ (sanitize_column_name tn)) = none →
      (get_all_data db tn connOk).1 = emptyDF) ∧
    (∀ e, q db = .error e → (get_data_by_filters db q connOk).1 = emptyDF) := by
  cases connOk with
  | false =>
    refine ⟨rfl, rfl, fun _ => ⟨rfl, rfl⟩, fun _ => rfl, fun _ _ => rfl⟩
  | true =>
    refine ⟨?_, ?_, fun h => Bool.noConfusion h, ?_, ?_⟩
    · unfold get_all_data
      cases h : selectAllFrom db (stripDQ (sanitize_column_name tn)) <;> simp [h]
    · unfold get_data_by_filters
      cases h : q db with
      | error e => simp [h]
      | ok p => cases p; simp [h]
    · intro h
      unfold get_all_data selectAllFrom
      simp [h]
    · intro e h
      unfold get_data_by_filters
      simp [h]

/-- C9 witness: empty database, dead connection or failing query — all
degrade to the empty frame and leave the database untouched. -/
theorem C9_reads_safe_witness :
    (get_all_data ⟨[]⟩ "customer_data" false).1 = emptyDF ∧
    (get_all_data ⟨[]⟩ "customer_data" true).1 = emptyDF ∧
    (get_data_by_filters ⟨[]⟩ (fun _ => .error "bad query") true).1 = emptyDF ∧
    (get_data_by_filters ⟨[]⟩ (fun _ => .error "bad query") true).2 = ⟨[]⟩ := by
  have hf := C9_reads_safe ⟨[]⟩ "customer_data" (fun _ => .error "bad query") false
  have ht := C9_reads_safe ⟨[]⟩ "customer_data" (fun _ => .error "bad query") true
  exact ⟨(hf.2.2.1 rfl).1, ht.2.2.2.1 (by decide),
    ht.2.2.2.2 "bad query" rfl, ht.2.1⟩

/-! ## C10: ingestion mutates the caller's frame -/

/-- C10 (confirmed): with a live connection, `ingest_csv_data` hands
back the caller's frame with every column renamed to the quote-stripped
sanitized name, on both the success and the failed-load path — the
in-place `df.columns` assignments are visible to the caller. -/
theorem C10_ingest_mutates (db : DBState) (df : DF) (tn : String)
    (copyFail : Bool) (partialStaged : List (List SVal)) :
    (ingest_csv_data db df tn true copyFail partialStaged).2.2 =
      ⟨df.cols.map (fun c => (stripDQ (sanitize_column_name c.1), c.2))⟩ := by
  cases copyFail <;>
    simp [ingest_csv_data, DF.renameCols, List.map_map, Function.comp]

/-- C10 witness: a header "Customer ID" comes back as "customer_id" —
the caller's frame is changed. -/
theorem C10_ingest_mutates_witness :
    (ingest_csv_data ⟨[]⟩ exDFCust "customer_data" true false []).2.2 =
      ⟨[("customer_id", [SVal.i 7])]⟩ ∧
    (ingest_csv_data ⟨[]⟩ exDFCust "customer_data" true false []).2.2 ≠ exDFCust := by
  have h := C10_ingest_mutates ⟨[]⟩ exDFCust "customer_data" false []
  exact ⟨h.trans (by decide), by rw [h]; decide⟩
